import Mathlib

/-!
Verification of the weather ensemble and accuracy services.

Shallow embedding of the core numerical logic of
`backend/app/services/ensemble.py` and `backend/app/services/accuracy.py`.
Machine floats are modelled as exact rationals (for closed-form arithmetic)
and reals (where `exp` / `sqrt` appear); optional values are `Option`.
-/

namespace WeatherApp

/-! ## accuracy.py: `_calculate_accuracy_score` -/

/-- Embedding of `AccuracyService._calculate_accuracy_score` from
`backend/app/services/accuracy.py` (lines 172-219): a piecewise score in
`error = abs(predicted - actual)`. -/
def calculateAccuracyScore (predicted actual tolerance : ℚ) : ℚ :=
  let error := |predicted - actual|
  if error ≤ tolerance * (1/2) then 100
  else if error ≤ tolerance then 100 - (error / tolerance) * 25
  else if error ≤ tolerance * 2 then 75 - ((error - tolerance) / tolerance) * 50
  else max 0 (25 - ((error - tolerance * 2) / tolerance) * 25)

/-- The accuracy-score curve as the specification words it: a piecewise
function of `error = |predicted - actual|` with zones delimited at
`0.5*tolerance`, `tolerance` and `2*tolerance`. Written from the spec text,
to be compared against `calculateAccuracyScore`. -/
def specAccuracyScore (predicted actual tolerance : ℚ) : ℚ :=
  let error := |predicted - actual|
  if error ≤ (1/2) * tolerance then 100
  else if (1/2) * tolerance < error ∧ error ≤ tolerance then
    100 - (error / tolerance) * 25
  else if tolerance < error ∧ error ≤ 2 * tolerance then
    75 - ((error - tolerance) / tolerance) * 50
  else max 0 (25 - ((error - 2 * tolerance) / tolerance) * 25)

/-! ## ensemble.py: `EnsembleCalculator._weighted_average` -/

/-- A per-source mapping of optional scalars, in source iteration order
(Python dict preserves insertion order). -/
abbrev SourceVals := List (String × Option ℚ)

/-- A weight table: mapping from source name to weight. -/
abbrev WeightTable := List (String × ℚ)

/-- Embedding of `weights.get(model, 1.0)`: table lookup defaulting to 1. -/
def lookupWeight (weights : WeightTable) (model : String) : ℚ :=
  match weights.lookup model with
  | some w => w
  | none => 1

/-- The `(value, weight)` pairs kept by the filtering loop of
`_weighted_average` (lines 80-86): sources whose value is present, paired
with their looked-up weight. -/
def validEntries (values : SourceVals) (weights : WeightTable) : List (ℚ × ℚ) :=
  values.filterMap (fun p =>
    match p.2 with
    | some v => some (v, lookupWeight weights p.1)
    | none => none)

/-- Embedding of the mean computed by `_weighted_average` (lines 88-96):
empty input gives 0; otherwise the weights are normalized by their sum and
`np.average` divides the weighted value sum by the (normalized) weight sum. -/
def weightedMean (values : SourceVals) (weights : WeightTable) : ℚ :=
  let valid := validEntries values weights
  if valid = [] then 0
  else
    let wsum := (valid.map (fun p => p.2)).sum
    let normalized := valid.map (fun p => (p.1, p.2 / wsum))
    ((normalized.map (fun p => p.1 * p.2)).sum) / ((normalized.map (fun p => p.2)).sum)

/-- The present values of a per-source mapping, in order (the `valid_values`
list of `_weighted_average`). -/
def presentValues (values : SourceVals) : List ℚ :=
  values.filterMap (fun p => p.2)

/-- Embedding of `np.std` with default `ddof=0`: mean of squared deviations
from the arithmetic mean (population variance, divisor `n`). -/
def popVariance (l : List ℚ) : ℚ :=
  let n : ℚ := l.length
  let mean := l.sum / n
  ((l.map (fun v => (v - mean) ^ 2)).sum) / n

/-- Embedding of the spread returned by `_weighted_average` (lines 88-98):
0 for an all-absent mapping, else `np.std` (population standard deviation)
of the present values. -/
noncomputable def spread (values : SourceVals) : ℝ :=
  let vals := presentValues values
  if vals = [] then 0 else Real.sqrt ((popVariance vals : ℚ) : ℝ)

/-- The sample standard deviation (divisor `n - 1`) of a list, as the spec
sentence for the spread words it. Written from the spec, to be compared with
`spread`. -/
noncomputable def sampleStdDev (l : List ℚ) : ℝ :=
  Real.sqrt (((l.map (fun v => (v - l.sum / l.length) ^ 2)).sum
    / ((l.length : ℚ) - 1) : ℚ) : ℝ)

/-- The population standard deviation written independently via the
second-moment identity `sqrt(E[x^2] - (E[x])^2)`, used as the spec-side
formulation when checking what `spread` computes. -/
noncomputable def specPopStdDev (l : List ℚ) : ℝ :=
  Real.sqrt ((((l.map (fun v => v ^ 2)).sum / l.length
    - (l.sum / l.length) ^ 2 : ℚ)) : ℝ)

/-! ## ensemble.py: `EnsembleCalculator._calculate_confidence` -/

/-- Embedding of the `typical_spreads` dict lookup with default 3.0
(lines 124-130). -/
def typicalSpread (metricType : String) : ℚ :=
  if metricType = "temperature" then 3
  else if metricType = "precipitation" then 5
  else if metricType = "wind_speed" then 5
  else 3

/-- Embedding of `_calculate_confidence` (lines 102-135):
`max(0, min(100, 100 * exp(-spread / typical)))`. -/
noncomputable def calcConfidence (spreadVal : ℝ) (metricType : String) : ℝ :=
  max 0 (min 100 (100 * Real.exp (-spreadVal / (typicalSpread metricType : ℝ))))

/-! ## ensemble.py: weather-code resolution (lines 242-243 and 303-304)

The source computes `max(set(valid_codes), key=valid_codes.count)`.
Two CPython facts are embedded here:
* `max(iterable, key=f)` returns the FIRST element of the iterable whose
  key is maximal (later elements replace the current best only on a
  strictly greater key);
* a CPython `set` of at most 5 small non-negative ints (hash = value)
  lives in a hash table of 8 slots and iterates by slot index; when the
  values occupy distinct slots (distinct residues mod 8) the iteration
  order is ascending in `value % 8`. The inputs decided here satisfy this.
-/

/-- Insert into a list sorted by residue mod 8 (stable). -/
def insertByMod8 (x : ℤ) : List ℤ → List ℤ
  | [] => [x]
  | y :: t => if x % 8 ≤ y % 8 then x :: y :: t else y :: insertByMod8 x t

/-- Sort a list by residue mod 8. -/
def sortByMod8 : List ℤ → List ℤ
  | [] => []
  | y :: t => insertByMod8 y (sortByMod8 t)

/-- Iteration order of a CPython set of small non-negative ints occupying
distinct slots of the 8-slot table: distinct values, ascending by
`value % 8`. -/
def cpythonSetList (l : List ℤ) : List ℤ :=
  sortByMod8 l.dedup

/-- Embedding of Python `max(candidates, key=occurrences.count)`: the first
candidate attaining the maximal count (strict comparison while folding). -/
def pyMaxByCount (occurrences : List ℤ) : List ℤ → Option ℤ
  | [] => none
  | c :: rest =>
      some (rest.foldl
        (fun best x => if occurrences.count x > occurrences.count best then x else best) c)

/-- Embedding of the weather-code resolver (ensemble.py lines 242-243):
`valid_codes = [v for v in weather_codes.values() if v is not None]` and
`int(max(set(valid_codes), key=valid_codes.count)) if valid_codes else 0`. -/
def resolveWeatherCode (codes : List (Option ℤ)) : ℤ :=
  let valid := codes.filterMap id
  match pyMaxByCount valid (cpythonSetList valid) with
  | some c => c
  | none => 0

/-! ## ensemble.py: daily precipitation-probability fallback (lines 282-295) -/

/-- Embedding of the daily fallback in `get_ensemble_forecast`: when the
aggregated daily precipitation probability is exactly 0, take the slice
`hourly[day_start:day_end]` with `day_start = i * 24` and
`day_end = min(day_start + 24, len(hourly))`, and if the slice is nonempty
replace the value by `max` of the slice; otherwise keep it. A Python slice
`[a:b]` is `drop a` then `take (b - a)`, and Python `max` of a nonempty list
folds `max` from its head. -/
def dailyPrecipProbability (hourlyProbs : List ℚ) (i : ℕ) (precipProbAvg : ℚ) : ℚ :=
  if precipProbAvg = 0 then
    let dayStart := i * 24
    let dayEnd := min (dayStart + 24) hourlyProbs.length
    if dayStart < hourlyProbs.length then
      match (hourlyProbs.drop dayStart).take (dayEnd - dayStart) with
      | [] => precipProbAvg
      | p :: rest => rest.foldl max p
    else precipProbAvg
  else precipProbAvg

/-- Maximum of a list with default 0 for the empty list; used to phrase
the claim about the fallback value. -/
def listMaxD (l : List ℚ) : ℚ :=
  match l with
  | [] => 0
  | p :: rest => rest.foldl max p

/-! ## accuracy.py: snapshot-observation matching (lines 238-249)

The join condition is `snapshot.location_id == observation.location_id` and
`abs(julianday(target_time) - julianday(observation_time)) < 0.042`.
`julianday` maps a timestamp to fractional days since the Julian epoch, so
the difference of two `julianday` values is the time difference measured in
days; timestamps are embedded as rational day numbers. `0.042 = 21/500`. -/

/-- Embedding of the SQL join predicate of `calculate_accuracy_metrics`:
same location and absolute time difference (in days) below 0.042. -/
def snapshotObservationMatch (snapLocationId obsLocationId : ℤ)
    (targetTime observationTime : ℚ) : Bool :=
  snapLocationId == obsLocationId
    && decide (|targetTime - observationTime| < 21/500)

/-! ## accuracy.py: per-pair ensemble scoring (lines 278-310) -/

/-- The fields of a `ForecastSnapshot` row used by the scoring loop. -/
structure SnapshotRow where
  leadHours : ℤ
  temperatureEnsemble : Option ℚ
  precipitationEnsemble : Option ℚ
  windSpeedEnsemble : Option ℚ
  deriving Repr, DecidableEq

/-- The fields of an `Observation` row used by the scoring loop. -/
structure ObservationRow where
  temperature : Option ℚ
  precipitation : Option ℚ
  windSpeed : Option ℚ
  deriving Repr, DecidableEq

/-- Precipitation component of a scored pair (lines 289-295): scored with
tolerance 1.0 when both sides are present, else defaulted to 100. -/
def precipComponent (s : SnapshotRow) (o : ObservationRow) : ℚ :=
  match s.precipitationEnsemble, o.precipitation with
  | some p, some a => calculateAccuracyScore p a 1
  | _, _ => 100

/-- Wind component of a scored pair (lines 297-303): scored with tolerance
5.0 when both sides are present, else defaulted to 100. -/
def windComponent (s : SnapshotRow) (o : ObservationRow) : ℚ :=
  match s.windSpeedEnsemble, o.windSpeed with
  | some w, some a => calculateAccuracyScore w a 5
  | _, _ => 100

/-- Embedding of the ensemble part of the scoring loop body
(lines 282-310): the overall score appended to `ensemble_scores` and to
`lead_time_scores[snapshot.lead_hours]`, produced only when both the
ensemble temperature and the observed temperature are present (temperature
tolerance 2.0). -/
def ensemblePairScore (s : SnapshotRow) (o : ObservationRow) : Option ℚ :=
  match s.temperatureEnsemble, o.temperature with
  | some tp, some ta =>
      some ((calculateAccuracyScore tp ta 2 + precipComponent s o + windComponent s o) / 3)
  | _, _ => none

/-- The `(lead_hours, overall)` contribution a pair makes to the
per-lead-time grouping: present exactly when the pair is scored. -/
def leadContribution (s : SnapshotRow) (o : ObservationRow) : Option (ℤ × ℚ) :=
  (ensemblePairScore s o).map (fun sc => (s.leadHours, sc))

/-! ## accuracy.py: `store_forecast_snapshot` (lines 55-118) -/

/-- The fixed lead hours the recorder considers (line 72). -/
def leadHoursToStore : List ℕ := [24, 48, 72, 120, 168]

/-- The lead hours for which `store_forecast_snapshot` persists a row, as a
function of the raw hourly time-array length and the ensemble hourly series
length: a lead is skipped when `lead_hours >= len(hourly_times)` (line 75)
or `lead_hours >= len(ensemble_data["hourly"])` (lines 94-101). -/
def storedLeadHours (hourlyTimesLen ensembleHourlyLen : ℕ) : List ℕ :=
  leadHoursToStore.filter
    (fun l => decide (l < hourlyTimesLen) && decide (l < ensembleHourlyLen))

/-- Length of the hourly series built by `get_ensemble_forecast`
(ensemble.py line 206): one point per element of `hourly_times[:168]`. -/
def ensembleHourlyLength (hourlyTimes : List String) : ℕ :=
  (hourlyTimes.take 168).length

/-- Scaling every entry of a weight table by a constant, as the
weight-normalization property of the spec describes. -/
def scaleWeights (c : ℚ) (weights : WeightTable) : WeightTable :=
  weights.map (fun p => (p.1, c * p.2))

/-- Concrete per-source mapping of the end-to-end spec scenario: three
sources reporting temperatures 18, 20 and 22. -/
def c4Vals : SourceVals := [("A", some 18), ("B", some 20), ("C", some 22)]

/-- Equal weight 1.0 for each of the three sources of the scenario. -/
def c4Weights : WeightTable := [("A", 1), ("B", 1), ("C", 1)]

/-- Two sources with present values, used for the weight-scaling analysis. -/
def c6Vals : SourceVals := [("A", some 10), ("B", some 20)]

/-- A positive weight table that lists only source A, so that source B falls
back to the default weight 1.0. -/
def c6Weights : WeightTable := [("A", 2)]

/-- A positive weight table covering both sources of `c6Vals`. -/
def c6FullWeights : WeightTable := [("A", 2), ("B", 1)]

/-! ## Shared helper lemmas -/

/-- The typical-spread table only contains positive entries (3, 5, 5, and
default 3). -/
lemma typicalSpread_pos (metricType : String) : (0:ℚ) < typicalSpread metricType := by
  unfold typicalSpread
  split_ifs <;> norm_num

/-- A 16-fold compounding lower bound for `exp` on the nonnegative axis. -/
lemma pow16_le_exp (x : ℝ) (hx : 0 ≤ x) : (1 + x/16)^16 ≤ Real.exp x := by
  have h := Real.add_one_le_exp (x/16)
  have hb : (0:ℝ) ≤ 1 + x/16 := by positivity
  have hp : (1 + x/16)^16 ≤ (Real.exp (x/16))^16 :=
    pow_le_pow_left₀ hb (by linarith) 16
  have he : (Real.exp (x/16))^16 = Real.exp x := by
    rw [← Real.exp_nat_mul]
    push_cast
    ring_nf
  linarith [hp, he.le, he.ge]

/-- Upper bound for `exp` of a nonpositive argument via `pow16_le_exp`. -/
lemma exp_neg_le_inv_pow16 (x : ℝ) (hx : 0 ≤ x) :
    Real.exp (-x) ≤ ((1 + x/16)^16)⁻¹ := by
  rw [Real.exp_neg]
  have hpos : (0:ℝ) < (1 + x/16)^16 := by positivity
  exact inv_anti₀ hpos (pow16_le_exp x hx)

/-- A 16-fold compounding lower bound for `exp` of a nonpositive argument. -/
lemma pow16_le_exp_neg (x : ℝ) (h16 : x ≤ 16) : (1 - x/16)^16 ≤ Real.exp (-x) := by
  have h := Real.add_one_le_exp (-x/16)
  have hb : (0:ℝ) ≤ 1 - x/16 := by linarith
  have hp : (1 - x/16)^16 ≤ (Real.exp (-x/16))^16 :=
    pow_le_pow_left₀ hb (by linarith) 16
  have he : (Real.exp (-x/16))^16 = Real.exp (-x) := by
    rw [← Real.exp_nat_mul]
    push_cast
    ring_nf
  linarith

/-- Expanding a sum of squared deviations. -/
lemma sum_sq_dev (l : List ℚ) (m : ℚ) :
    (l.map (fun v => (v - m) ^ 2)).sum
      = (l.map (fun v => v ^ 2)).sum - 2 * m * l.sum + l.length * m ^ 2 := by
  induction l with
  | nil => simp
  | cons x t ih =>
      simp only [List.map_cons, List.sum_cons, ih, List.length_cons]
      push_cast
      ring

/-- The population variance via the second-moment identity. -/
lemma popVariance_eq (l : List ℚ) (h : l ≠ []) :
    popVariance l = (l.map (fun v => v ^ 2)).sum / l.length - (l.sum / l.length) ^ 2 := by
  have hn : (l.length : ℚ) ≠ 0 := by
    have : l.length ≠ 0 := fun h0 => h (List.length_eq_zero.mp h0)
    exact_mod_cast this
  unfold popVariance
  dsimp only
  rw [sum_sq_dev]
  field_simp
  ring

/-- The present values of the end-to-end scenario. -/
lemma presentValues_c4 : presentValues c4Vals = [18, 20, 22] := by
  simp [presentValues, c4Vals]

/-- Population variance of the scenario values is 8/3. -/
lemma popVariance_c4 : popVariance [(18:ℚ), 20, 22] = 8/3 := by
  simp [popVariance]
  norm_num

/-- The scenario spread evaluates to the square root of 8/3. -/
lemma spread_c4 : spread c4Vals = Real.sqrt ((8:ℝ)/3) := by
  unfold spread
  dsimp only
  rw [presentValues_c4, if_neg (by simp), popVariance_c4]
  norm_num

/-- Looking up in a scaled table multiplies a found weight by the factor. -/
lemma lookupWeight_scale (weights : WeightTable) (c : ℚ) (s : String)
    (h : (weights.lookup s).isSome) :
    lookupWeight (scaleWeights c weights) s = c * lookupWeight weights s := by
  induction weights with
  | nil => simp [List.lookup] at h
  | cons p t ih =>
      obtain ⟨k, v⟩ := p
      by_cases hs : s == k
      · simp [scaleWeights, lookupWeight, List.lookup, hs]
      · have h' : (t.lookup s).isSome := by
          simpa [List.lookup, hs] using h
        have hrec := ih h'
        simpa [scaleWeights, lookupWeight, List.lookup, hs] using hrec

/-- Under a covering weight table, scaling the table rescales the weight of
every kept entry. -/
lemma validEntries_scale (values : SourceVals) (weights : WeightTable) (c : ℚ)
    (hcover : ∀ s v, (s, some v) ∈ values → (weights.lookup s).isSome) :
    validEntries values (scaleWeights c weights)
      = (validEntries values weights).map (fun p => (p.1, c * p.2)) := by
  induction values with
  | nil => simp [validEntries]
  | cons p t ih =>
      obtain ⟨s, v⟩ := p
      have hct : ∀ s' v', (s', some v') ∈ t → (weights.lookup s').isSome :=
        fun s' v' hmem => hcover s' v' (List.mem_cons_of_mem _ hmem)
      cases v with
      | none =>
          simpa [validEntries, List.filterMap_cons] using ih hct
      | some v =>
          have hs : (weights.lookup s).isSome := hcover s v (List.mem_cons_self _ _)
          have hrec := ih hct
          simp only [validEntries, List.filterMap_cons] at hrec ⊢
          simp [hrec, lookupWeight_scale weights c s hs]

/-- The temperature confidence of the scenario, with the clamp collapsed:
it equals the bare exponential expression. -/
lemma conf_c4_eq : calcConfidence (spread c4Vals) "temperature"
    = 100 * Real.exp (-Real.sqrt ((8:ℝ)/3) / 3) := by
  rw [spread_c4]
  unfold calcConfidence
  have hT : ((typicalSpread "temperature" : ℚ) : ℝ) = 3 := by
    norm_num [typicalSpread]
  rw [hT]
  have hnn : (0:ℝ) ≤ Real.sqrt ((8:ℝ)/3) := Real.sqrt_nonneg _
  have hexp_le : Real.exp (-Real.sqrt ((8:ℝ)/3) / 3) ≤ 1 :=
    Real.exp_le_one_iff.mpr (by linarith)
  have hexp_pos : (0:ℝ) < Real.exp (-Real.sqrt ((8:ℝ)/3) / 3) := Real.exp_pos _
  rw [min_eq_right (by linarith), max_eq_right (by linarith)]

/-- Rational lower bound on the scenario spread. -/
lemma sqrt83_lb : (16329/10000 : ℝ) ≤ Real.sqrt ((8:ℝ)/3) := by
  have h : (16329/10000 : ℝ) = Real.sqrt ((16329/10000) ^ 2) :=
    (Real.sqrt_sq (by norm_num)).symm
  rw [h]
  exact Real.sqrt_le_sqrt (by norm_num)

/-- Rational upper bound on the scenario spread. -/
lemma sqrt83_ub : Real.sqrt ((8:ℝ)/3) ≤ 1633/1000 := by
  have h : (1633/1000 : ℝ) = Real.sqrt ((1633/1000) ^ 2) :=
    (Real.sqrt_sq (by norm_num)).symm
  rw [h]
  exact Real.sqrt_le_sqrt (by norm_num)

/-- The scenario confidence is below 59 (it is about 58.0). -/
lemma conf_c4_lt : calcConfidence (spread c4Vals) "temperature" < 59 := by
  rw [conf_c4_eq]
  have hs := sqrt83_lb
  have h1 : -Real.sqrt ((8:ℝ)/3) / 3 ≤ -(16329/30000 : ℝ) := by linarith
  have h2 : Real.exp (-Real.sqrt ((8:ℝ)/3) / 3) ≤ Real.exp (-(16329/30000 : ℝ)) :=
    Real.exp_le_exp.mpr h1
  have h3 : Real.exp (-(16329/30000 : ℝ)) ≤ ((1 + (16329/30000)/16 : ℝ) ^ 16)⁻¹ :=
    exp_neg_le_inv_pow16 _ (by norm_num)
  have h4 : ((1 + (16329/30000)/16 : ℝ) ^ 16)⁻¹ < 59/100 := by norm_num
  linarith

/-- The scenario confidence is above 57 (it is about 58.0). -/
lemma conf_c4_gt : 57 < calcConfidence (spread c4Vals) "temperature" := by
  rw [conf_c4_eq]
  have hs := sqrt83_ub
  have hnn := Real.sqrt_nonneg ((8:ℝ)/3)
  have h1 : -(1633/3000 : ℝ) ≤ -Real.sqrt ((8:ℝ)/3) / 3 := by linarith
  have h2 : Real.exp (-(1633/3000 : ℝ)) ≤ Real.exp (-Real.sqrt ((8:ℝ)/3) / 3) :=
    Real.exp_le_exp.mpr h1
  have h3 : ((1 - (1633/3000)/16 : ℝ)) ^ 16 ≤ Real.exp (-(1633/3000 : ℝ)) :=
    pow16_le_exp_neg _ (by norm_num)
  have h4 : (57:ℝ)/100 < ((1 - (1633/3000)/16 : ℝ)) ^ 16 := by norm_num
  linarith

/-! ## Claim theorems -/

/-- Claim C1: for every predicted and actual value and positive tolerance,
`_calculate_accuracy_score` equals the piecewise curve described by the
spec; in particular it maps (20,20,2) to 100, (22,20,2) to 75, (24,20,2)
to 25 and (30,20,2) to 0, and is never negative. -/
theorem C1_accuracy_score_piecewise (p a t : ℚ) (ht : 0 < t) :
    calculateAccuracyScore p a t = specAccuracyScore p a t
    ∧ calculateAccuracyScore 20 20 2 = 100
    ∧ calculateAccuracyScore 22 20 2 = 75
    ∧ calculateAccuracyScore 24 20 2 = 25
    ∧ calculateAccuracyScore 30 20 2 = 0
    ∧ 0 ≤ calculateAccuracyScore p a t := by
  refine ⟨?_, ?_, ?_, ?_, ?_, ?_⟩
  · unfold calculateAccuracyScore specAccuracyScore
    dsimp only
    rcases le_or_lt |p - a| (t * (1/2)) with h1 | h1
    · have h1s : |p - a| ≤ 1/2 * t := by linarith
      rw [if_pos h1, if_pos h1s]
    · have h1c : ¬(|p - a| ≤ t * (1/2)) := by linarith
      have h1s : ¬(|p - a| ≤ 1/2 * t) := by linarith
      rw [if_neg h1c, if_neg h1s]
      rcases le_or_lt |p - a| t with h2 | h2
      · have h2s : 1/2 * t < |p - a| ∧ |p - a| ≤ t := ⟨by linarith, h2⟩
        rw [if_pos h2, if_pos h2s]
      · have h2c : ¬(|p - a| ≤ t) := by linarith
        have h2s : ¬(1/2 * t < |p - a| ∧ |p - a| ≤ t) := fun h => h2c h.2
        rw [if_neg h2c, if_neg h2s]
        rcases le_or_lt |p - a| (t * 2) with h3 | h3
        · have h3s : t < |p - a| ∧ |p - a| ≤ 2 * t := ⟨h2, by linarith⟩
          rw [if_pos h3, if_pos h3s]
        · have h3c : ¬(|p - a| ≤ t * 2) := by linarith
          have h3s : ¬(t < |p - a| ∧ |p - a| ≤ 2 * t) :=
            fun h => absurd h.2 (by linarith)
          rw [if_neg h3c, if_neg h3s, mul_comm t 2]
  · norm_num [calculateAccuracyScore]
  · norm_num [calculateAccuracyScore]
  · norm_num [calculateAccuracyScore]
  · norm_num [calculateAccuracyScore]
  · unfold calculateAccuracyScore
    dsimp only
    have he0 : 0 ≤ |p - a| := abs_nonneg _
    split_ifs with h1 h2 h3
    · norm_num
    · have : |p - a| / t ≤ 1 := (div_le_one ht).mpr h2
      nlinarith
    · have : (|p - a| - t) / t ≤ 1 := (div_le_one ht).mpr (by linarith)
      nlinarith
    · exact le_max_left _ _

/-- Witness for C1 at tolerance 2. -/
theorem C1_accuracy_score_piecewise_witness :
    (0:ℚ) < 2 ∧ calculateAccuracyScore 21 20 2 = specAccuracyScore 21 20 2 :=
  ⟨by norm_num, (C1_accuracy_score_piecewise 21 20 2 (by norm_num)).1⟩

/-- Claim C2 (code evaluation): the weather-code resolver on the tied input
with values 61 and 95 returns 61, not the numerically largest code 95 the
spec and the source comment promise; the untied input with two 61 and one
95 resolves to 61, and the empty input to 0. -/
theorem C2_weather_code_resolver_eval :
    resolveWeatherCode [some 61, some 95] = 61
    ∧ resolveWeatherCode [some 61, some 61, some 95] = 61
    ∧ resolveWeatherCode [] = 0 := by
  exact ⟨by decide, by decide, by decide⟩

/-- Claim C3 (counterexample): a snapshot and an observation of the same
location 301/7200 days apart (60.2 minutes, more than 1 hour = 300/7200
days) are matched by the join predicate, so "matching iff the time
difference is strictly below 1 hour" is false. -/
theorem C3_matching_counterexample :
    snapshotObservationMatch 1 1 0 (301/7200) = true
    ∧ ¬(|(0:ℚ) - 301/7200| < 1/24) := by
  constructor
  · simp only [snapshotObservationMatch]
    rw [zero_sub, abs_neg, abs_of_nonneg (by norm_num : (0:ℚ) ≤ 301/7200)]
    norm_num
  · rw [zero_sub, abs_neg, abs_of_nonneg (by norm_num : (0:ℚ) ≤ 301/7200)]
    norm_num

/-- Claim C3 (amended): a snapshot and an observation are a matching pair
iff they share the location id and the absolute difference between target
time and observation time is strictly below 0.042 days (60.48 minutes,
approximately 1 hour). -/
theorem C3_matching_amended (sl ol : ℤ) (targetTime observationTime : ℚ) :
    snapshotObservationMatch sl ol targetTime observationTime = true
      ↔ sl = ol ∧ |targetTime - observationTime| < 21/500 := by
  simp [snapshotObservationMatch]

/-- Claim C7: the confidence estimator returns exactly 100 at spread 0, is
monotonically non-increasing in the spread, and always lands in [0, 100],
for every metric type. -/
theorem C7_confidence_properties (metricType : String) (s1 s2 : ℝ)
    (h0 : 0 ≤ s1) (h12 : s1 ≤ s2) :
    calcConfidence 0 metricType = 100
    ∧ calcConfidence s2 metricType ≤ calcConfidence s1 metricType
    ∧ (∀ s : ℝ, 0 ≤ calcConfidence s metricType ∧ calcConfidence s metricType ≤ 100) := by
  have hT : (0:ℝ) < (typicalSpread metricType : ℝ) := by
    exact_mod_cast typicalSpread_pos metricType
  refine ⟨?_, ?_, ?_⟩
  · unfold calcConfidence
    rw [neg_zero, zero_div, Real.exp_zero, mul_one, min_self]
    exact max_eq_right (by norm_num)
  · unfold calcConfidence
    have hdiv : -s2 / (typicalSpread metricType : ℝ) ≤ -s1 / (typicalSpread metricType : ℝ) :=
      (div_le_div_iff_of_pos_right hT).mpr (neg_le_neg h12)
    have hexp : Real.exp (-s2 / (typicalSpread metricType : ℝ))
        ≤ Real.exp (-s1 / (typicalSpread metricType : ℝ)) :=
      Real.exp_le_exp.mpr hdiv
    exact max_le_max (le_refl 0)
      (min_le_min (le_refl 100) (by linarith))
  · intro s
    exact ⟨le_max_left _ _, max_le (by norm_num) (min_le_left _ _)⟩

/-- Witness for C7 at metric type temperature and spreads 1 and 2. -/
theorem C7_confidence_properties_witness :
    (0:ℝ) ≤ 1 ∧ (1:ℝ) ≤ 2
    ∧ calcConfidence 2 "temperature" ≤ calcConfidence 1 "temperature" :=
  ⟨by norm_num, by norm_num,
    (C7_confidence_properties "temperature" 1 2 (by norm_num) (by norm_num)).2.1⟩

/-- Claim C10: when the ensemble hourly series has at most 168 points (and
the one built by `get_ensemble_forecast` always does, since it truncates to
`hourly_times[:168]`), no snapshot with lead 168 is persisted; snapshots
exist at most for leads 24, 48, 72 and 120. -/
theorem C10_stored_lead_hours (hourlyTimesLen ensembleHourlyLen : ℕ)
    (h : ensembleHourlyLen ≤ 168) :
    168 ∉ storedLeadHours hourlyTimesLen ensembleHourlyLen
    ∧ (∀ l ∈ storedLeadHours hourlyTimesLen ensembleHourlyLen,
        l ∈ ([24, 48, 72, 120] : List ℕ))
    ∧ (∀ hourlyTimes : List String, ensembleHourlyLength hourlyTimes ≤ 168) := by
  refine ⟨?_, ?_, ?_⟩
  · intro hmem
    rw [storedLeadHours, List.mem_filter] at hmem
    have := hmem.2
    simp at this
    omega
  · intro l hl
    rw [storedLeadHours, List.mem_filter] at hl
    obtain ⟨hmem, hcond⟩ := hl
    simp [leadHoursToStore] at hmem
    simp at hcond
    rcases hmem with rfl | rfl | rfl | rfl | rfl
    · simp
    · simp
    · simp
    · simp
    · omega
  · intro hourlyTimes
    simp [ensembleHourlyLength, List.length_take]

/-- Witness for C10 with a 200-entry raw time array and a 168-point
ensemble hourly series. -/
theorem C10_stored_lead_hours_witness :
    168 ≤ 168 ∧ 168 ∉ storedLeadHours 200 168 :=
  ⟨le_refl 168, (C10_stored_lead_hours 200 168 (le_refl 168)).1⟩

/-- Claim C8: in the daily builder, an aggregated daily
precipitation-probability of exactly 0 is replaced by the maximum hourly
precipitation-probability over the (clipped) 24 hourly points of day `i`,
and a nonzero aggregated value is kept unchanged. -/
theorem C8_daily_precip_fallback (hourlyProbs : List ℚ) (i : ℕ) (avg : ℚ) :
    (avg = 0 → (hourlyProbs.drop (i * 24)).take 24 ≠ [] →
      dailyPrecipProbability hourlyProbs i avg
        = listMaxD ((hourlyProbs.drop (i * 24)).take 24))
    ∧ (avg ≠ 0 → dailyPrecipProbability hourlyProbs i avg = avg) := by
  constructor
  · intro h0 hne
    have hlt : i * 24 < hourlyProbs.length := by
      by_contra hge
      push_neg at hge
      have hdrop : hourlyProbs.drop (i * 24) = [] :=
        List.drop_eq_nil_of_le hge
      rw [hdrop, List.take_nil] at hne
      exact hne rfl
    have hslice : (hourlyProbs.drop (i * 24)).take
          (min (i * 24 + 24) hourlyProbs.length - i * 24)
        = (hourlyProbs.drop (i * 24)).take 24 := by
      rcases le_or_lt (i * 24 + 24) hourlyProbs.length with hle | hlt2
      · congr 1
        omega
      · have hmin : min (i * 24 + 24) hourlyProbs.length = hourlyProbs.length := by
          omega
        rw [hmin,
          List.take_of_length_le (by rw [List.length_drop]),
          List.take_of_length_le (by rw [List.length_drop]; omega)]
    obtain ⟨p, rest, hpr⟩ :
        ∃ p rest, (hourlyProbs.drop (i * 24)).take 24 = p :: rest := by
      cases hl : (hourlyProbs.drop (i * 24)).take 24 with
      | nil => exact absurd hl hne
      | cons p rest => exact ⟨p, rest, rfl⟩
    unfold dailyPrecipProbability
    rw [if_pos h0]
    dsimp only
    rw [if_pos hlt, hslice, hpr]
    simp [listMaxD]
  · intro h
    unfold dailyPrecipProbability
    rw [if_neg h]

/-- Witness for C8 on the three-point hourly series [0, 30, 10] at day 0
with aggregated daily value 0. -/
theorem C8_daily_precip_fallback_witness :
    ((0:ℚ) = 0) ∧ (([(0:ℚ), 30, 10].drop (0 * 24)).take 24 ≠ [])
    ∧ dailyPrecipProbability [0, 30, 10] 0 0
        = listMaxD (([(0:ℚ), 30, 10].drop (0 * 24)).take 24) :=
  ⟨rfl, by simp,
    (C8_daily_precip_fallback [0, 30, 10] 0 0).1 rfl (by simp)⟩

/-- Claim C9: a matched pair contributes an overall ensemble score (and its
per-lead-time entry) exactly when both the ensemble temperature and the
observed temperature are present; within a scored pair a missing
precipitation or wind value on either side defaults that component to 100. -/
theorem C9_pair_scoring (s : SnapshotRow) (o : ObservationRow) :
    ((ensemblePairScore s o).isSome ↔ s.temperatureEnsemble.isSome ∧ o.temperature.isSome)
    ∧ ((leadContribution s o).isSome ↔ (ensemblePairScore s o).isSome)
    ∧ (∀ tp ta, s.temperatureEnsemble = some tp → o.temperature = some ta →
        ensemblePairScore s o
          = some ((calculateAccuracyScore tp ta 2 + precipComponent s o + windComponent s o) / 3))
    ∧ ((s.precipitationEnsemble = none ∨ o.precipitation = none) → precipComponent s o = 100)
    ∧ ((s.windSpeedEnsemble = none ∨ o.windSpeed = none) → windComponent s o = 100) := by
  refine ⟨?_, ?_, ?_, ?_, ?_⟩
  · unfold ensemblePairScore
    cases s.temperatureEnsemble <;> cases o.temperature <;> simp
  · unfold leadContribution
    cases ensemblePairScore s o <;> simp
  · intro tp ta hs ho
    unfold ensemblePairScore
    rw [hs, ho]
  · intro h
    unfold precipComponent
    rcases h with h | h
    · rw [h]
    · rw [h]; cases s.precipitationEnsemble <;> rfl
  · intro h
    unfold windComponent
    rcases h with h | h
    · rw [h]
    · rw [h]; cases s.windSpeedEnsemble <;> rfl

/-- Witness for C9 on a pair whose temperatures are present and whose
precipitation is absent on both sides. -/
theorem C9_pair_scoring_witness :
    (ensemblePairScore ⟨24, some 20, none, some 10⟩ ⟨some 19, none, some 8⟩).isSome
    ∧ precipComponent ⟨24, some 20, none, some 10⟩ ⟨some 19, none, some 8⟩ = 100 :=
  ⟨(C9_pair_scoring ⟨24, some 20, none, some 10⟩ ⟨some 19, none, some 8⟩).1.mpr
      ⟨rfl, rfl⟩,
    (C9_pair_scoring ⟨24, some 20, none, some 10⟩ ⟨some 19, none, some 8⟩).2.2.2.1
      (Or.inl rfl)⟩

/-- Claim C5 (counterexample): for the three present values 18, 20, 22 the
spread returned by the aggregator (population standard deviation,
sqrt(8/3) ≈ 1.633) differs from the sample standard deviation with divisor
n - 1 (sqrt(4) = 2). -/
theorem C5_spread_counterexample :
    spread c4Vals ≠ sampleStdDev (presentValues c4Vals) := by
  have hsample : sampleStdDev (presentValues c4Vals) = 2 := by
    rw [presentValues_c4]
    unfold sampleStdDev
    norm_num
    rw [show ((4:ℝ)) = 2 ^ 2 by norm_num, Real.sqrt_sq (by norm_num)]
  rw [spread_c4, hsample]
  have hlt : Real.sqrt ((8:ℝ)/3) < 2 := by
    have h4 : (2:ℝ) = Real.sqrt 4 := by
      rw [show (4:ℝ) = 2 ^ 2 by norm_num, Real.sqrt_sq (by norm_num)]
    rw [h4]
    exact Real.sqrt_lt_sqrt (by norm_num) (by norm_num)
  exact ne_of_lt hlt

/-- Claim C5 (amended): for every per-source mapping with at least one
present value, the spread equals the unweighted population standard
deviation (divisor n) of the present values. -/
theorem C5_spread_population (values : SourceVals)
    (h : presentValues values ≠ []) :
    spread values = specPopStdDev (presentValues values) := by
  unfold spread specPopStdDev
  dsimp only
  rw [if_neg h]
  congr 1
  exact_mod_cast congrArg (fun q : ℚ => (q : ℝ))
    (popVariance_eq (presentValues values) h)

/-- Witness for C5 on the scenario mapping with values 18, 20, 22. -/
theorem C5_spread_population_witness :
    presentValues c4Vals ≠ [] ∧ spread c4Vals = specPopStdDev (presentValues c4Vals) :=
  ⟨by simp [presentValues, c4Vals],
    C5_spread_population c4Vals (by simp [presentValues, c4Vals])⟩

/-- Claim C6 (counterexample): with present values {A:10, B:20}, the
positive weight table {A:2} (B defaults to weight 1.0), and scale factor 3,
the aggregated mean changes from 40/3 to 80/7, because the default weight
of an unlisted source is not scaled. -/
theorem C6_weight_scaling_counterexample :
    (0:ℚ) < 3 ∧ (∀ p ∈ c6Weights, 0 < p.2)
    ∧ weightedMean c6Vals (scaleWeights 3 c6Weights) ≠ weightedMean c6Vals c6Weights := by
  refine ⟨by norm_num, ?_, ?_⟩
  · intro p hp
    simp [c6Weights] at hp
    subst hp
    norm_num
  · have h1 : weightedMean c6Vals c6Weights = 40/3 := by
      simp [weightedMean, validEntries, lookupWeight, c6Vals, c6Weights,
        List.lookup, List.filterMap_cons]
      norm_num
    have h2 : weightedMean c6Vals (scaleWeights 3 c6Weights) = 80/7 := by
      simp [weightedMean, validEntries, lookupWeight, c6Vals, c6Weights,
        List.lookup, List.filterMap_cons, scaleWeights]
      norm_num
    rw [h1, h2]
    norm_num

/-- Claim C6 (amended): scaling every weight in the table by the same
positive constant leaves the aggregated mean unchanged, provided every
source with a present value has an entry in the table (so no kept source
uses the unscaled default weight). -/
theorem C6_weight_scaling_amended (values : SourceVals) (weights : WeightTable)
    (c : ℚ) (hc : 0 < c)
    (hcover : ∀ s v, (s, some v) ∈ values → (weights.lookup s).isSome) :
    weightedMean values (scaleWeights c weights) = weightedMean values weights := by
  have hc0 : c ≠ 0 := ne_of_gt hc
  unfold weightedMean
  rw [validEntries_scale values weights c hcover]
  dsimp only
  by_cases hv : validEntries values weights = []
  · simp [hv]
  · rw [if_neg (by simpa using hv), if_neg hv]
    have hcomp : ((fun (p : ℚ × ℚ) => p.2) ∘ fun (p : ℚ × ℚ) => (p.1, c * p.2))
        = fun p => c * p.2 := by
      funext p
      rfl
    have hws : (((validEntries values weights).map (fun p => (p.1, c * p.2))).map
          (fun p => p.2)).sum
        = c * ((validEntries values weights).map (fun p => p.2)).sum := by
      rw [List.map_map, hcomp]
      exact List.sum_map_mul_left _ _ _
    rw [hws]
    have hmap : ((validEntries values weights).map (fun p => (p.1, c * p.2))).map
          (fun p => (p.1, p.2 / (c * ((validEntries values weights).map
            (fun p => p.2)).sum)))
        = (validEntries values weights).map
            (fun p => (p.1, p.2 / ((validEntries values weights).map
              (fun p => p.2)).sum)) := by
      rw [List.map_map]
      congr 1
      funext p
      simp only [Function.comp_def]
      rw [mul_div_mul_left _ _ hc0]
    rw [hmap]

/-- Witness for C6 on the covering table {A:2, B:1} with factor 3. -/
theorem C6_weight_scaling_amended_witness :
    (0:ℚ) < 3
    ∧ weightedMean c6Vals (scaleWeights 3 c6FullWeights)
        = weightedMean c6Vals c6FullWeights :=
  ⟨by norm_num,
    C6_weight_scaling_amended c6Vals c6FullWeights 3 (by norm_num) (by
      intro s v hmem
      simp [c6Vals] at hmem
      rcases hmem with ⟨rfl, -⟩ | ⟨rfl, -⟩ <;> simp [c6FullWeights, List.lookup])⟩

/-- Claim C4 (counterexample): the temperature confidence of the scenario
{18, 20, 22} with equal weights differs from 59.6 by more than 1/2 (it is
about 58.0), so "approximately 59.6" is false. -/
theorem C4_confidence_counterexample :
    1/2 < |calcConfidence (spread c4Vals) "temperature" - 596/10| := by
  have hub := conf_c4_lt
  have habs : |calcConfidence (spread c4Vals) "temperature" - 596/10|
      = 596/10 - calcConfidence (spread c4Vals) "temperature" := by
    rw [abs_of_neg (by linarith)]
    ring
  rw [habs]
  linarith

/-- Claim C4 (amended): for 3 sources reporting {18, 20, 22} with equal
weight 1.0, the mean is exactly 20, the spread is the population standard
deviation sqrt(8/3) ≈ 1.633 of [18, 20, 22], and the temperature
confidence equals 100·exp(-spread/3), which is about 58.0 (between 57 and
59), not 59.6. -/
theorem C4_end_to_end_scenario :
    weightedMean c4Vals c4Weights = 20
    ∧ spread c4Vals = Real.sqrt ((8:ℝ)/3)
    ∧ spread c4Vals = specPopStdDev [18, 20, 22]
    ∧ calcConfidence (spread c4Vals) "temperature"
        = 100 * Real.exp (-Real.sqrt ((8:ℝ)/3) / 3)
    ∧ 57 < calcConfidence (spread c4Vals) "temperature"
    ∧ calcConfidence (spread c4Vals) "temperature" < 59 := by
  refine ⟨?_, spread_c4, ?_, conf_c4_eq, conf_c4_gt, conf_c4_lt⟩
  · simp [weightedMean, validEntries, lookupWeight, c4Vals, c4Weights,
      List.lookup, List.filterMap_cons]
    norm_num
  · rw [spread_c4]
    unfold specPopStdDev
    norm_num

end WeatherApp
